import Mathlib

/-!
Shallow embedding of the smart-home dashboard state logic
(src/types.ts, src/App.tsx, src/services/geminiService.ts).

Strings are Lean `String`s; JS `number` fields that the logic sums over
(`powerDraw`, `power`, `totalPower`) are `Int`; ambient readings
(`temp`, `humidity`, `temperature`, `progress`) are `Rat`.
The wall clock (`Date.now()` / `toLocaleTimeString`) is passed in as an
explicit `Stamp` parameter; the external text-generation call is passed
in as an explicit `CallOutcome` oracle value.
-/

namespace SmartHome

/-- src/types.ts: DeviceType. -/
inductive DeviceType
  | WASHER | FRIDGE | TV | SERVER | ROUTER | SPEAKER | CAMERA | THERMOSTAT
deriving DecidableEq

/-- src/types.ts: Device.status values. -/
inductive DeviceStatus
  | OFF | IDLE | ACTIVE | ERROR
deriving DecidableEq

/-- src/types.ts: Device. -/
structure Device where
  id : String
  name : String
  type : DeviceType
  status : DeviceStatus
  powerDraw : Int
  progress : Option Rat := none
  temperature : Option Rat := none
deriving DecidableEq

/-- src/types.ts: RoomNode. -/
structure RoomNode where
  id : String
  name : String
  temp : Rat
  humidity : Rat
  lights : Bool
  power : Int
  active : Bool
  devices : List Device
deriving DecidableEq

/-- src/types.ts: SystemStatus.security values. -/
inductive SecurityMode
  | ARMED | DISARMED | BREACH
deriving DecidableEq

/-- src/types.ts: SystemStatus.network values. -/
inductive NetworkMode
  | ONLINE | OFFLINE
deriving DecidableEq

/-- src/types.ts: SystemStatus.aiStatus values. -/
inductive AIStatus
  | IDLE | ANALYZING | GENERATING
deriving DecidableEq

/-- src/types.ts: SystemStatus. -/
structure SystemStatus where
  security : SecurityMode
  network : NetworkMode
  aiStatus : AIStatus
  totalPower : Int
deriving DecidableEq

/-- src/types.ts: LogEntry.type values. -/
inductive LogType
  | info | warning | error | ai
deriving DecidableEq

/-- src/types.ts: LogEntry. -/
structure LogEntry where
  id : String
  timestamp : String
  source : String
  message : String
  type : LogType
deriving DecidableEq

/-- src/types.ts: ViewMode. -/
inductive ViewMode
  | STANDARD | POWER | VENTILATION | WIFI | WATER | THERMAL
deriving DecidableEq

/-- The values `addLog` reads from the wall clock: `Date.now().toString()`
for the entry id and the formatted local time for the timestamp. -/
structure Stamp where
  id : String
  timestamp : String
deriving DecidableEq

/-- JS `String.prototype.toLowerCase` (ASCII fragment). -/
def jsToLower (s : String) : String :=
  String.mk (s.toList.map Char.toLower)

/-- JS `String.prototype.toUpperCase` (ASCII fragment). -/
def jsToUpper (s : String) : String :=
  String.mk (s.toList.map Char.toUpper)

/-- Substring occurrence on character lists: does `needle` occur
contiguously in the second argument? -/
def listIncl (needle : List Char) : List Char → Bool
  | [] => needle.isEmpty
  | c :: rest => needle.isPrefixOf (c :: rest) || listIncl needle rest

/-- JS `hay.includes(needle)`. -/
def jsIncludes (hay needle : String) : Bool :=
  listIncl needle.toList hay.toList

/-- JS `String.prototype.trim`: strip whitespace from both ends. -/
def jsTrim (s : String) : String :=
  String.mk (((s.toList.dropWhile Char.isWhitespace).reverse.dropWhile
    Char.isWhitespace).reverse)

/-- The list update performed by `setLogs(prev => [...prev.slice(-15), newLog])`
inside `addLog` (src/App.tsx line 97). -/
def appendLog (logs : List LogEntry) (e : LogEntry) : List LogEntry :=
  logs.drop (logs.length - 15) ++ [e]

/-- src/App.tsx `addLog`: build the entry from the clock values and the
given source/message/type, and append it with `appendLog`. -/
def addLog (logs : List LogEntry) (stamp : Stamp) (source message : String)
    (ty : LogType) : List LogEntry :=
  appendLog logs
    { id := stamp.id, timestamp := stamp.timestamp, source := source,
      message := message, type := ty }

/-- The screen name of a device status, as interpolated into log messages. -/
def statusName : DeviceStatus → String
  | .OFF => "OFF"
  | .IDLE => "IDLE"
  | .ACTIVE => "ACTIVE"
  | .ERROR => "ERROR"

/-- The screen name of a security mode, as interpolated into log messages. -/
def securityName : SecurityMode → String
  | .ARMED => "ARMED"
  | .DISARMED => "DISARMED"
  | .BREACH => "BREACH"

/-- src/App.tsx line 112: `d.status === 'ACTIVE' ? 'IDLE' : 'ACTIVE'`. -/
def toggleStatus : DeviceStatus → DeviceStatus
  | .ACTIVE => .IDLE
  | _ => .ACTIVE

/-- src/App.tsx `toggleDevice`, inner `r.devices.map(...)`: flip every
device whose id matches, appending one DEVICE_CTRL log entry per match
(the `addLog` call inside the map), left to right. Returns the updated
device list together with the updated log. -/
def toggleDevicesAux (deviceId : String) (stamp : Stamp) :
    List Device → List LogEntry → List Device × List LogEntry
  | [], logs => ([], logs)
  | d :: ds, logs =>
    if d.id = deviceId then
      let newStatus := toggleStatus d.status
      let logs1 := addLog logs stamp "DEVICE_CTRL"
        (jsToUpper d.name ++ " SET TO " ++ statusName newStatus)
        (if newStatus = .ACTIVE then .warning else .info)
      let p := toggleDevicesAux deviceId stamp ds logs1
      ({ d with status := newStatus } :: p.1, p.2)
    else
      let p := toggleDevicesAux deviceId stamp ds logs
      (d :: p.1, p.2)

/-- src/App.tsx `toggleDevice`, outer `prev.map(r => ...)`: rooms whose id
differs are returned unchanged; matching rooms have their device list
processed by `toggleDevicesAux`. -/
def toggleRoomsAux (roomId deviceId : String) (stamp : Stamp) :
    List RoomNode → List LogEntry → List RoomNode × List LogEntry
  | [], logs => ([], logs)
  | r :: rs, logs =>
    if r.id = roomId then
      let p := toggleDevicesAux deviceId stamp r.devices logs
      let q := toggleRoomsAux roomId deviceId stamp rs p.2
      ({ r with devices := p.1 } :: q.1, q.2)
    else
      let q := toggleRoomsAux roomId deviceId stamp rs logs
      (r :: q.1, q.2)

/-- src/App.tsx lines 74-79, the totalPower effect body:
`rooms.reduce((acc, room) => acc + roomBase + devicePower, 0)` with
`roomBase = room.lights ? room.power : 5` and
`devicePower = room.devices.reduce((dAcc, d) => dAcc + (d.status === 'ACTIVE' ? d.powerDraw : 2), 0)`. -/
def computeTotalPower (rooms : List RoomNode) : Int :=
  rooms.foldl (fun acc room =>
    let roomBase : Int := if room.lights then room.power else 5
    let devicePower : Int := room.devices.foldl
      (fun dAcc d => dAcc + (if d.status = .ACTIVE then d.powerDraw else 2)) 0
    acc + roomBase + devicePower) 0

/-- Modelled from the spec wording of the power rule (spec section 4.1 and
claim C1): the sum over rooms of (the room's configured power if its lights
flag is true, else the fixed 5 W baseline) plus, for each device in the
room, (the device's powerDraw if its status is ACTIVE, else the fixed idle
baseline). Stated independently of the code's fold for comparison. -/
def specTotalPower (rooms : List RoomNode) : Int :=
  (rooms.map (fun room =>
    (if room.lights then room.power else 5) +
      ((room.devices.map
        (fun d => if d.status = .ACTIVE then d.powerDraw else 2)).sum))).sum

/-- The outcome of the one external call in src/services/geminiService.ts:
either the promise resolves with `response.text` (an optional string), or
it throws. -/
inductive CallOutcome
  | success (text : Option String)
  | failure
deriving DecidableEq

/-- src/services/geminiService.ts `generateSystemInsight`: on a thrown
error return the fixed connection-error string; otherwise return
`response.text || "SYSTEM ERROR: NO RESPONSE DATA"` (JS `||` substitutes
the fallback when the text is absent or empty). The room/status/query
arguments only shape the prompt sent out and never affect which branch
is taken. -/
def generateSystemInsight (rooms : List RoomNode) (status : SystemStatus)
    (query : String) (outcome : CallOutcome) : String :=
  match outcome with
  | .failure => "CONNECTION ERROR: UNABLE TO REACH AI CORE."
  | .success t =>
    match t with
    | none => "SYSTEM ERROR: NO RESPONSE DATA"
    | some s => if s = "" then "SYSTEM ERROR: NO RESPONSE DATA" else s

/-- The full in-memory state of the App component. -/
structure State where
  rooms : List RoomNode
  systemStatus : SystemStatus
  activeRoomId : Option String
  selectedDeviceId : Option String
  viewMode : ViewMode
  logs : List LogEntry
  aiInput : String
deriving DecidableEq

/-- The discrete user-triggered events of the App. The two phases of
`handleAICommand` (the synchronous submit and the deferred completion of
the external call) are separate events, since the completion runs after
the simulated latency. -/
inductive Action
  | toggleRoomLight (id : String) (stamp : Stamp)
  | toggleDevice (roomId deviceId : String) (stamp : Stamp)
  | toggleSecurity (stamp : Stamp)
  | selectRoom (id : String)
  | selectDevicePanel (id : String)
  | backFromDevice
  | handleDeviceSelect (deviceId : String)
  | setViewMode (m : ViewMode)
  | setAiInput (text : String)
  | aiSubmit (stamp : Stamp)
  | aiResolve (userQuery : String) (outcome : CallOutcome) (stamp : Stamp)

/-- One step of the App: the handler for the event, followed by the
totalPower effect (src/App.tsx lines 74-81) whenever the handler changed
the rooms array. -/
def applyAction (a : Action) (s : State) : State :=
  match a with
  | .toggleRoomLight rid stamp =>
    let rooms1 := s.rooms.map
      (fun r => if r.id = rid then { r with lights := !r.lights } else r)
    { s with
      rooms := rooms1,
      logs := addLog s.logs stamp "MANUAL_OVERRIDE"
        ("LIGHTS TOGGLED FOR " ++ jsToUpper rid) .info,
      systemStatus :=
        { s.systemStatus with totalPower := computeTotalPower rooms1 } }
  | .toggleDevice rid did stamp =>
    let p := toggleRoomsAux rid did stamp s.rooms s.logs
    { s with
      rooms := p.1,
      logs := p.2,
      systemStatus :=
        { s.systemStatus with totalPower := computeTotalPower p.1 } }
  | .toggleSecurity stamp =>
    let newStatus := if s.systemStatus.security = .ARMED then
      SecurityMode.DISARMED else .ARMED
    { s with
      systemStatus := { s.systemStatus with security := newStatus },
      logs := addLog s.logs stamp "SECURITY"
        ("SYSTEM " ++ securityName newStatus)
        (if newStatus = .ARMED then .info else .warning) }
  | .selectRoom rid =>
    { s with activeRoomId := some rid, selectedDeviceId := none }
  | .selectDevicePanel did =>
    { s with selectedDeviceId := some did }
  | .backFromDevice =>
    { s with selectedDeviceId := none }
  | .handleDeviceSelect did =>
    match s.rooms.find? (fun r => r.devices.any (fun d => d.id == did)) with
    | some room =>
      { s with activeRoomId := some room.id, selectedDeviceId := some did }
    | none => s
  | .setViewMode m =>
    { s with viewMode := m }
  | .setAiInput text =>
    { s with aiInput := text }
  | .aiSubmit stamp =>
    if jsTrim s.aiInput = "" then s
    else
      let userQuery := s.aiInput
      { s with
        aiInput := "",
        systemStatus := { s.systemStatus with aiStatus := .ANALYZING },
        logs := addLog s.logs stamp "USER" userQuery .info }
  | .aiResolve userQuery outcome stamp =>
    let response := generateSystemInsight s.rooms s.systemStatus
      userQuery outcome
    let vm1 := if jsIncludes (jsToLower userQuery) "view power" then
      ViewMode.POWER else s.viewMode
    let vm2 := if jsIncludes (jsToLower userQuery) "view water" then
      ViewMode.WATER else vm1
    let vm3 := if jsIncludes (jsToLower userQuery) "view thermal" then
      ViewMode.THERMAL else vm2
    { s with
      systemStatus := { s.systemStatus with aiStatus := .IDLE },
      logs := addLog s.logs stamp "AERO-12" response .ai,
      viewMode := vm3 }

/-- A sequence of events, applied left to right. -/
def applyActions (acts : List Action) (s : State) : State :=
  acts.foldl (fun st a => applyAction a st) s

/-- src/App.tsx INITIAL_ROOMS (the mock data the store starts from). -/
def INITIAL_ROOMS : List RoomNode :=
  [ { id := "living", name := "LIVING ROOM", temp := 21.5, humidity := 45,
      lights := true, power := 120, active := false,
      devices := [
        { id := "tv1", name := "Holoscreen TV", type := .TV, status := .IDLE,
          powerDraw := 80 } ] },
    { id := "kitchen", name := "KITCHEN", temp := 22.0, humidity := 50,
      lights := true, power := 250, active := false,
      devices := [
        { id := "fridge", name := "Smart Fridge", type := .FRIDGE,
          status := .ACTIVE, powerDraw := 150, temperature := some 3.5 } ] },
    { id := "master", name := "MASTER SUITE", temp := 20.0, humidity := 40,
      lights := false, power := 40, active := false,
      devices := [
        { id := "thermostat", name := "Nest Hub", type := .THERMOSTAT,
          status := .ACTIVE, powerDraw := 5, temperature := some 20.0 } ] },
    { id := "office", name := "OFFICE", temp := 21.0, humidity := 35,
      lights := true, power := 350, active := true,
      devices := [
        { id := "server", name := "Home Server", type := .SERVER,
          status := .ACTIVE, powerDraw := 300, temperature := some 45.0 },
        { id := "router", name := "Mesh Router", type := .ROUTER,
          status := .ACTIVE, powerDraw := 15 } ] },
    { id := "garage", name := "GARAGE", temp := 18.0, humidity := 60,
      lights := false, power := 10, active := false,
      devices := [
        { id := "washer", name := "Quantum Washer", type := .WASHER,
          status := .IDLE, powerDraw := 0, progress := some 0 },
        { id := "camera_front", name := "Front Cam", type := .CAMERA,
          status := .ACTIVE, powerDraw := 8 } ] } ]

/-- The state the App mounts with (src/App.tsx lines 55-69), before the
first run of the totalPower effect. -/
def initialState : State :=
  { rooms := INITIAL_ROOMS,
    systemStatus :=
      { security := .ARMED, network := .ONLINE, aiStatus := .IDLE,
        totalPower := 0 },
    activeRoomId := none,
    selectedDeviceId := none,
    viewMode := .STANDARD,
    logs := [
      { id := "1", timestamp := "08:00:01", source := "SYSTEM",
        message := "BOOT SEQUENCE COMPLETE", type := .info },
      { id := "2", timestamp := "08:00:05", source := "SECURITY",
        message := "PERIMETER SECURE", type := .info } ],
    aiInput := "" }

/-- The pure per-device part of `toggleDevice`: flip the status of a
matching device, leave others unchanged. -/
def flipDevice (deviceId : String) (d : Device) : Device :=
  if d.id = deviceId then { d with status := toggleStatus d.status } else d

/-- The pure per-room part of `toggleDevice`. -/
def flipRoom (roomId deviceId : String) (r : RoomNode) : RoomNode :=
  if r.id = roomId then
    { r with devices := r.devices.map (flipDevice deviceId) } else r

/-- The DEVICE_CTRL log entries produced by one `toggleDevice` pass over a
device list, in list order. -/
def devEntries (deviceId : String) (stamp : Stamp) :
    List Device → List LogEntry
  | [] => []
  | d :: ds =>
    if d.id = deviceId then
      { id := stamp.id, timestamp := stamp.timestamp, source := "DEVICE_CTRL",
        message := jsToUpper d.name ++ " SET TO " ++
          statusName (toggleStatus d.status),
        type := if toggleStatus d.status = .ACTIVE then .warning else .info }
        :: devEntries deviceId stamp ds
    else devEntries deviceId stamp ds

/-- The DEVICE_CTRL log entries produced by one `toggleDevice` pass over a
room list, in order. -/
def roomEntries (roomId deviceId : String) (stamp : Stamp) :
    List RoomNode → List LogEntry
  | [] => []
  | r :: rs =>
    if r.id = roomId then
      devEntries deviceId stamp r.devices ++ roomEntries roomId deviceId stamp rs
    else roomEntries roomId deviceId stamp rs

/-- How many devices in the list a `toggleDevice deviceId` pass matches. -/
def devMatchCount (deviceId : String) : List Device → Nat
  | [] => 0
  | d :: ds =>
    (if d.id = deviceId then 1 else 0) + devMatchCount deviceId ds

/-- How many (room, device) pairs a `toggleDevice roomId deviceId` pass
matches across the room list. -/
def roomMatchCount (roomId deviceId : String) : List RoomNode → Nat
  | [] => 0
  | r :: rs =>
    (if r.id = roomId then devMatchCount deviceId r.devices else 0) +
      roomMatchCount roomId deviceId rs

/-- A one-room state whose single device starts in the OFF status. -/
def offState : State :=
  { rooms := [
      { id := "r1", name := "R1", temp := 20, humidity := 50,
        lights := false, power := 10, active := false,
        devices := [
          { id := "d1", name := "D1", type := .WASHER,
            status := .OFF, powerDraw := 0 } ] } ],
    systemStatus :=
      { security := .ARMED, network := .ONLINE, aiStatus := .IDLE,
        totalPower := 0 },
    activeRoomId := none,
    selectedDeviceId := none,
    viewMode := .STANDARD,
    logs := [],
    aiInput := "" }

/-- Every device of every room has status ACTIVE or IDLE. -/
def statusInv (s : State) : Prop :=
  ∀ r ∈ s.rooms, ∀ d ∈ r.devices,
    d.status = DeviceStatus.ACTIVE ∨ d.status = DeviceStatus.IDLE

instance (s : State) : Decidable (statusInv s) := by
  unfold statusInv; infer_instance

/-! ### Helper lemmas -/

theorem foldl_add_map_sum {α : Type} (f : α → Int) :
    ∀ (l : List α) (a : Int),
      l.foldl (fun acc x => acc + f x) a = a + (l.map f).sum
  | [], a => by simp
  | x :: l, a => by
    simp only [List.foldl_cons, List.map_cons, List.sum_cons,
      foldl_add_map_sum f l]
    ring

theorem computeTotalPower_aux :
    ∀ (rooms : List RoomNode) (a : Int),
      rooms.foldl (fun acc room =>
        let roomBase : Int := if room.lights then room.power else 5
        let devicePower : Int := room.devices.foldl
          (fun dAcc d =>
            dAcc + (if d.status = DeviceStatus.ACTIVE then d.powerDraw else 2))
          0
        acc + roomBase + devicePower) a = a + specTotalPower rooms
  | [], a => by simp [specTotalPower]
  | r :: rs, a => by
    simp only [List.foldl_cons]
    rw [computeTotalPower_aux rs]
    rw [foldl_add_map_sum
      (fun d : Device =>
        if d.status = DeviceStatus.ACTIVE then d.powerDraw else 2)
      r.devices 0]
    simp only [specTotalPower, List.map_cons, List.sum_cons]
    ring

theorem computeTotalPower_eq_spec (rooms : List RoomNode) :
    computeTotalPower rooms = specTotalPower rooms := by
  unfold computeTotalPower
  rw [computeTotalPower_aux]
  ring

theorem appendLog_length (l : List LogEntry) (e : LogEntry) :
    (appendLog l e).length = min (l.length + 1) 16 := by
  unfold appendLog
  simp only [List.length_append, List.length_drop, List.length_cons,
    List.length_nil]
  omega

theorem appendLog_dropLast (l : List LogEntry) (e : LogEntry) :
    (appendLog l e).dropLast = l.drop (l.length - 15) := by
  unfold appendLog
  rw [List.dropLast_concat]

theorem appendLog_getLast? (l : List LogEntry) (e : LogEntry) :
    (appendLog l e).getLast? = some e := by
  unfold appendLog
  rw [List.getLast?_concat]

theorem dropWhile_all {p : Char → Bool} :
    ∀ l : List Char, (∀ c ∈ l, p c = true) → l.dropWhile p = []
  | [], _ => rfl
  | c :: l, h => by
    rw [List.dropWhile_cons, if_pos (h c (List.mem_cons_self c l))]
    exact dropWhile_all l (fun x hx => h x (List.mem_cons_of_mem c hx))

theorem jsTrim_all_ws {s : String}
    (h : ∀ c ∈ s.toList, c.isWhitespace = true) : jsTrim s = "" := by
  unfold jsTrim
  rw [dropWhile_all s.toList h]
  rfl

theorem toggleDevicesAux_fst (did : String) (st : Stamp) :
    ∀ (ds : List Device) (logs : List LogEntry),
      (toggleDevicesAux did st ds logs).1 = ds.map (flipDevice did)
  | [], _ => rfl
  | d :: ds, logs => by
    by_cases h : d.id = did <;>
      simp [toggleDevicesAux, flipDevice, h, toggleDevicesAux_fst did st ds]

theorem toggleDevicesAux_snd (did : String) (st : Stamp) :
    ∀ (ds : List Device) (logs : List LogEntry),
      (toggleDevicesAux did st ds logs).2 =
        (devEntries did st ds).foldl appendLog logs
  | [], _ => rfl
  | d :: ds, logs => by
    by_cases h : d.id = did <;>
      simp [toggleDevicesAux, devEntries, addLog, h,
        toggleDevicesAux_snd did st ds]

theorem toggleRoomsAux_fst (rid did : String) (st : Stamp) :
    ∀ (rs : List RoomNode) (logs : List LogEntry),
      (toggleRoomsAux rid did st rs logs).1 = rs.map (flipRoom rid did)
  | [], _ => rfl
  | r :: rs, logs => by
    by_cases h : r.id = rid <;>
      simp [toggleRoomsAux, flipRoom, h, toggleRoomsAux_fst rid did st rs,
        toggleDevicesAux_fst]

theorem toggleRoomsAux_snd (rid did : String) (st : Stamp) :
    ∀ (rs : List RoomNode) (logs : List LogEntry),
      (toggleRoomsAux rid did st rs logs).2 =
        (roomEntries rid did st rs).foldl appendLog logs
  | [], _ => rfl
  | r :: rs, logs => by
    by_cases h : r.id = rid <;>
      simp [toggleRoomsAux, roomEntries, h, toggleRoomsAux_snd rid did st rs,
        toggleDevicesAux_snd, List.foldl_append]

theorem devEntries_length (did : String) (st : Stamp) :
    ∀ ds : List Device, (devEntries did st ds).length = devMatchCount did ds
  | [] => rfl
  | d :: ds => by
    by_cases h : d.id = did
    · simp [devEntries, devMatchCount, h, devEntries_length did st ds]
      omega
    · simp [devEntries, devMatchCount, h, devEntries_length did st ds]

theorem roomEntries_length (rid did : String) (st : Stamp) :
    ∀ rs : List RoomNode,
      (roomEntries rid did st rs).length = roomMatchCount rid did rs
  | [] => rfl
  | r :: rs => by
    by_cases h : r.id = rid <;>
      simp [roomEntries, roomMatchCount, h, roomEntries_length rid did st rs,
        devEntries_length]

theorem flipDevice_id (did : String) (d : Device) :
    (flipDevice did d).id = d.id := by
  unfold flipDevice
  split <;> rfl

theorem flipRoom_id (rid did : String) (r : RoomNode) :
    (flipRoom rid did r).id = r.id := by
  unfold flipRoom
  split <;> rfl

theorem flipRoom_devices_of_match (rid did : String) (r : RoomNode)
    (h : r.id = rid) :
    (flipRoom rid did r).devices = r.devices.map (flipDevice did) := by
  simp [flipRoom, h]

theorem devMatchCount_map_flip (did did' : String) :
    ∀ ds : List Device,
      devMatchCount did (ds.map (flipDevice did')) = devMatchCount did ds
  | [] => rfl
  | d :: ds => by
    simp [devMatchCount, flipDevice_id, devMatchCount_map_flip did did' ds]

theorem roomMatchCount_map_flip (rid did : String) :
    ∀ rs : List RoomNode,
      roomMatchCount rid did (rs.map (flipRoom rid did)) =
        roomMatchCount rid did rs
  | [] => rfl
  | r :: rs => by
    by_cases h : r.id = rid
    · simp [roomMatchCount, flipRoom_id, h,
        flipRoom_devices_of_match rid did r h, devMatchCount_map_flip,
        roomMatchCount_map_flip rid did rs]
    · simp [roomMatchCount, flipRoom_id, h,
        roomMatchCount_map_flip rid did rs]

theorem toggleStatus_mem (st : DeviceStatus) :
    toggleStatus st = DeviceStatus.ACTIVE ∨
      toggleStatus st = DeviceStatus.IDLE := by
  cases st <;> simp [toggleStatus]

theorem toggleStatus_twice {st : DeviceStatus}
    (h : st = DeviceStatus.ACTIVE ∨ st = DeviceStatus.IDLE) :
    toggleStatus (toggleStatus st) = st := by
  rcases h with h | h <;> subst h <;> rfl

theorem flipDevice_twice (did : String) (d : Device)
    (h : d.id = did →
      d.status = DeviceStatus.ACTIVE ∨ d.status = DeviceStatus.IDLE) :
    flipDevice did (flipDevice did d) = d := by
  by_cases hid : d.id = did
  · simp [flipDevice, hid, toggleStatus_twice (h hid)]
    rw [← hid]
  · simp [flipDevice, hid]

theorem map_flipDevice_twice (did : String) :
    ∀ ds : List Device,
      (∀ d ∈ ds, d.id = did →
        d.status = DeviceStatus.ACTIVE ∨ d.status = DeviceStatus.IDLE) →
      (ds.map (flipDevice did)).map (flipDevice did) = ds
  | [], _ => rfl
  | d :: ds, h => by
    simp only [List.map_cons, List.cons.injEq]
    constructor
    · exact flipDevice_twice did d (h d (List.mem_cons_self d ds))
    · exact map_flipDevice_twice did ds
        (fun x hx => h x (List.mem_cons_of_mem d hx))

theorem flipRoom_twice (rid did : String) (r : RoomNode)
    (h : r.id = rid → ∀ d ∈ r.devices, d.id = did →
      d.status = DeviceStatus.ACTIVE ∨ d.status = DeviceStatus.IDLE) :
    flipRoom rid did (flipRoom rid did r) = r := by
  by_cases hid : r.id = rid
  · simp [flipRoom, hid, map_flipDevice_twice did r.devices (h hid)]
    rw [← hid]
  · simp [flipRoom, hid]

theorem map_flipRoom_twice (rid did : String) :
    ∀ rs : List RoomNode,
      (∀ r ∈ rs, r.id = rid → ∀ d ∈ r.devices, d.id = did →
        d.status = DeviceStatus.ACTIVE ∨ d.status = DeviceStatus.IDLE) →
      (rs.map (flipRoom rid did)).map (flipRoom rid did) = rs
  | [], _ => rfl
  | r :: rs, h => by
    simp only [List.map_cons, List.cons.injEq]
    constructor
    · exact flipRoom_twice rid did r (h r (List.mem_cons_self r rs))
    · exact map_flipRoom_twice rid did rs
        (fun x hx => h x (List.mem_cons_of_mem r hx))

theorem statusInv_applyAction (a : Action) (s : State) (h : statusInv s) :
    statusInv (applyAction a s) := by
  cases a with
  | toggleRoomLight rid stamp =>
    intro r' hr' d hd
    simp only [applyAction, List.mem_map] at hr'
    obtain ⟨r, hr, rfl⟩ := hr'
    by_cases hid : r.id = rid
    · rw [if_pos hid] at hd
      exact h r hr d hd
    · rw [if_neg hid] at hd
      exact h r hr d hd
  | toggleDevice rid did stamp =>
    intro r' hr' d hd
    simp only [applyAction] at hr'
    rw [toggleRoomsAux_fst, List.mem_map] at hr'
    obtain ⟨r, hr, rfl⟩ := hr'
    unfold flipRoom at hd
    by_cases hid : r.id = rid
    · rw [if_pos hid] at hd
      replace hd : d ∈ r.devices.map (flipDevice did) := hd
      rw [List.mem_map] at hd
      obtain ⟨d0, hd0, rfl⟩ := hd
      by_cases hdev : d0.id = did
      · have he : flipDevice did d0 =
            { d0 with status := toggleStatus d0.status } := by
          simp [flipDevice, hdev]
        rw [he]
        exact toggleStatus_mem d0.status
      · have he : flipDevice did d0 = d0 := by simp [flipDevice, hdev]
        rw [he]
        exact h r hr d0 hd0
    · rw [if_neg hid] at hd
      exact h r hr d hd
  | toggleSecurity stamp => exact fun r hr d hd => h r hr d hd
  | selectRoom rid => exact fun r hr d hd => h r hr d hd
  | selectDevicePanel did => exact fun r hr d hd => h r hr d hd
  | backFromDevice => exact fun r hr d hd => h r hr d hd
  | handleDeviceSelect did =>
    intro r hr d hd
    simp only [applyAction] at hr
    split at hr
    · exact h r hr d hd
    · exact h r hr d hd
  | setViewMode m => exact fun r hr d hd => h r hr d hd
  | setAiInput text => exact fun r hr d hd => h r hr d hd
  | aiSubmit stamp =>
    intro r hr d hd
    simp only [applyAction] at hr
    split at hr
    · exact h r hr d hd
    · exact h r hr d hd
  | aiResolve q out stamp => exact fun r hr d hd => h r hr d hd

/-! ### Claim theorems -/

/-- Claim C1: for every list of rooms, the computed total power equals the
sum over rooms of (the room's configured power if its lights flag is true,
else the fixed 5 W baseline) plus, for each device in the room, (the
device's powerDraw if its status is ACTIVE, else the fixed idle baseline);
and systemStatus.totalPower is recomputed to this value after every
room mutation (light toggle) and device mutation (device toggle). -/
theorem c1_total_power :
    (∀ rooms : List RoomNode, computeTotalPower rooms = specTotalPower rooms)
    ∧ (∀ (s : State) (rid did : String) (st : Stamp),
        (applyAction (Action.toggleDevice rid did st) s).systemStatus.totalPower
          = specTotalPower (applyAction (Action.toggleDevice rid did st) s).rooms)
    ∧ (∀ (s : State) (rid : String) (st : Stamp),
        (applyAction (Action.toggleRoomLight rid st) s).systemStatus.totalPower
          = specTotalPower (applyAction (Action.toggleRoomLight rid st) s).rooms) := by
  refine ⟨computeTotalPower_eq_spec, ?_, ?_⟩
  · intro s rid did st
    exact computeTotalPower_eq_spec _
  · intro s rid st
    exact computeTotalPower_eq_spec _

/-- Claim C2: starting from any log of at most 16 entries, any sequence of
appends leaves the log at 16 entries or fewer; moreover each single append
bounds the length by 16, keeps (besides the appended entry) a suffix of the
previous log — evicting oldest entries from the front and preserving the
order of the retained ones — and puts the new entry last. -/
theorem c2_log_bounded (init : List LogEntry) (es : List LogEntry)
    (hinit : init.length ≤ 16) :
    (es.foldl appendLog init).length ≤ 16
    ∧ (∀ (l : List LogEntry) (e : LogEntry),
        (appendLog l e).length = min (l.length + 1) 16
        ∧ (appendLog l e).dropLast <:+ l
        ∧ (appendLog l e).getLast? = some e) := by
  constructor
  · induction es generalizing init with
    | nil => exact hinit
    | cons e es ih =>
      have h1 : (appendLog init e).length ≤ 16 := by
        rw [appendLog_length]
        omega
      exact ih (appendLog init e) h1
  · intro l e
    exact ⟨appendLog_length l e,
      appendLog_dropLast l e ▸ List.drop_suffix _ _,
      appendLog_getLast? l e⟩

/-- Witness for C2 at the initial log (two entries) and one append. -/
theorem c2_log_bounded_witness :
    initialState.logs.length ≤ 16
    ∧ (([{ id := "3", timestamp := "08:00:09", source := "USER",
           message := "HELLO", type := LogType.info }] :
          List LogEntry).foldl appendLog initialState.logs).length ≤ 16 := by
  refine ⟨by decide, ?_⟩
  exact (c2_log_bounded initialState.logs _ (by decide)).1

/-- Counterexample to claim C3 as stated: the dispatcher scans the
submitted command, not the returned response text. Here the returned text
is "view power" but the command contains no trigger, and the view mode
stays STANDARD instead of switching to POWER. -/
theorem c3_counterexample :
    (applyAction (Action.aiResolve "status report"
        (CallOutcome.success (some "view power"))
        { id := "9", timestamp := "08:10:00" }) initialState).viewMode
      = ViewMode.STANDARD
    ∧ ViewMode.STANDARD ≠ ViewMode.POWER := by
  exact ⟨rfl, by decide⟩

/-- Claim C3 as amended: after the external call completes, the dispatcher
scans the submitted command string (not the returned response),
case-insensitively, for the fixed trigger substrings, and sets the view
mode to POWER, WATER or THERMAL respectively; the thermal check runs last
and the water check second, so later triggers take precedence when several
are present. -/
theorem c3_view_trigger :
    (∀ (q : String) (out : CallOutcome) (st : Stamp) (s : State),
      (applyAction (Action.aiResolve q out st) s).viewMode =
        (if jsIncludes (jsToLower q) "view thermal" then ViewMode.THERMAL
         else if jsIncludes (jsToLower q) "view water" then ViewMode.WATER
         else if jsIncludes (jsToLower q) "view power" then ViewMode.POWER
         else s.viewMode))
    ∧ (∀ (q : String) (out1 out2 : CallOutcome) (st1 st2 : Stamp)
        (s : State),
        (applyAction (Action.aiResolve q out1 st1) s).viewMode =
          (applyAction (Action.aiResolve q out2 st2) s).viewMode) := by
  constructor
  · intro q out st s
    simp only [applyAction]
  · intro q out1 out2 st1 st2 s
    simp only [applyAction]

/-- Counterexample to claim C4 as stated: the command
"view power view water" is non-empty and contains "view power", yet the
resolved view mode is WATER, because the water check runs after the power
check and overwrites it. -/
theorem c4_counterexample :
    jsIncludes (jsToLower "view power view water") "view power" = true
    ∧ jsTrim "view power view water" ≠ ""
    ∧ (applyAction (Action.aiResolve "view power view water"
        (CallOutcome.success (some "ACK"))
        { id := "9", timestamp := "08:10:00" }) initialState).viewMode
      = ViewMode.WATER
    ∧ ViewMode.WATER ≠ ViewMode.POWER := by
  exact ⟨by decide, by decide, rfl, by decide⟩

/-- Claim C4 as amended: for every submitted non-empty command that
contains "view power" in any letter case and contains neither "view water"
nor "view thermal", the view mode is POWER once the response resolves. -/
theorem c4_view_power (q : String) (out : CallOutcome) (st : Stamp)
    (s : State)
    (hne : jsTrim q ≠ "")
    (hp : jsIncludes (jsToLower q) "view power" = true)
    (hw : jsIncludes (jsToLower q) "view water" = false)
    (ht : jsIncludes (jsToLower q) "view thermal" = false) :
    (applyAction (Action.aiResolve q out st) s).viewMode = ViewMode.POWER := by
  simp only [applyAction]
  simp [hp, hw, ht]

/-- Witness for C4 (amended) at the command "view power". -/
theorem c4_view_power_witness :
    (jsTrim "view power" ≠ ""
     ∧ jsIncludes (jsToLower "view power") "view power" = true
     ∧ jsIncludes (jsToLower "view power") "view water" = false
     ∧ jsIncludes (jsToLower "view power") "view thermal" = false)
    ∧ (applyAction (Action.aiResolve "view power" (CallOutcome.success none)
        { id := "9", timestamp := "08:10:00" }) initialState).viewMode
      = ViewMode.POWER := by
  refine ⟨⟨by decide, by decide, by decide, by decide⟩, ?_⟩
  exact c4_view_power "view power" (CallOutcome.success none)
    { id := "9", timestamp := "08:10:00" } initialState
    (by decide) (by decide) (by decide) (by decide)

/-- Counterexample to claim C5 as stated: a device that starts in the OFF
status ends up IDLE after two toggles, not back at its original status. -/
theorem c5_counterexample :
    (offState.rooms.map (fun r => r.devices.map (fun d => d.status)))
      = [[DeviceStatus.OFF]]
    ∧ ((applyActions
        [Action.toggleDevice "r1" "d1" { id := "a", timestamp := "t1" },
         Action.toggleDevice "r1" "d1" { id := "b", timestamp := "t2" }]
        offState).rooms.map (fun r => r.devices.map (fun d => d.status)))
      = [[DeviceStatus.IDLE]]
    ∧ DeviceStatus.IDLE ≠ DeviceStatus.OFF := by
  exact ⟨by decide, by decide, by decide⟩

/-- Claim C5 as amended: for every room and every device in that room
whose status is ACTIVE or IDLE — and which the toggle matches exactly once
(one room with that room id containing one device with that device id) —
applying the device toggle twice in succession restores the room list
exactly and appends exactly two log entries. -/
theorem c5_toggle_twice (s : State) (rid did : String) (st1 st2 : Stamp)
    (hcount : roomMatchCount rid did s.rooms = 1)
    (hstat : ∀ r ∈ s.rooms, r.id = rid → ∀ d ∈ r.devices, d.id = did →
      d.status = DeviceStatus.ACTIVE ∨ d.status = DeviceStatus.IDLE) :
    (applyActions [Action.toggleDevice rid did st1,
        Action.toggleDevice rid did st2] s).rooms = s.rooms
    ∧ ∃ e1 e2 : LogEntry,
        (applyActions [Action.toggleDevice rid did st1,
          Action.toggleDevice rid did st2] s).logs
          = appendLog (appendLog s.logs e1) e2 := by
  have hr1 : (applyAction (Action.toggleDevice rid did st1) s).rooms
      = s.rooms.map (flipRoom rid did) :=
    toggleRoomsAux_fst rid did st1 s.rooms s.logs
  have hl1 : (applyAction (Action.toggleDevice rid did st1) s).logs
      = (roomEntries rid did st1 s.rooms).foldl appendLog s.logs :=
    toggleRoomsAux_snd rid did st1 s.rooms s.logs
  have hlen1 : (roomEntries rid did st1 s.rooms).length = 1 := by
    rw [roomEntries_length]
    exact hcount
  obtain ⟨e1, he1⟩ := List.length_eq_one.mp hlen1
  have hr2 : (applyAction (Action.toggleDevice rid did st2)
      (applyAction (Action.toggleDevice rid did st1) s)).rooms
      = (applyAction (Action.toggleDevice rid did st1) s).rooms.map
          (flipRoom rid did) :=
    toggleRoomsAux_fst rid did st2 _ _
  have hl2 : (applyAction (Action.toggleDevice rid did st2)
      (applyAction (Action.toggleDevice rid did st1) s)).logs
      = (roomEntries rid did st2
          (applyAction (Action.toggleDevice rid did st1) s).rooms).foldl
          appendLog (applyAction (Action.toggleDevice rid did st1) s).logs :=
    toggleRoomsAux_snd rid did st2 _ _
  have hlen2 : (roomEntries rid did st2
      (applyAction (Action.toggleDevice rid did st1) s).rooms).length = 1 := by
    rw [roomEntries_length, hr1, roomMatchCount_map_flip]
    exact hcount
  obtain ⟨e2, he2⟩ := List.length_eq_one.mp hlen2
  constructor
  · show (applyAction (Action.toggleDevice rid did st2)
        (applyAction (Action.toggleDevice rid did st1) s)).rooms = s.rooms
    rw [hr2, hr1]
    exact map_flipRoom_twice rid did s.rooms hstat
  · refine ⟨e1, e2, ?_⟩
    show (applyAction (Action.toggleDevice rid did st2)
        (applyAction (Action.toggleDevice rid did st1) s)).logs = _
    rw [hl2, he2, hl1, he1]
    rfl

/-- Witness for C5 (amended) at the initial state, toggling the living
room TV twice. -/
theorem c5_toggle_twice_witness :
    (roomMatchCount "living" "tv1" initialState.rooms = 1
     ∧ ∀ r ∈ initialState.rooms, r.id = "living" → ∀ d ∈ r.devices,
         d.id = "tv1" →
         d.status = DeviceStatus.ACTIVE ∨ d.status = DeviceStatus.IDLE)
    ∧ (applyActions
        [Action.toggleDevice "living" "tv1" { id := "a", timestamp := "t" },
         Action.toggleDevice "living" "tv1" { id := "b", timestamp := "u" }]
        initialState).rooms = initialState.rooms := by
  refine ⟨⟨by decide, by decide⟩, ?_⟩
  exact (c5_toggle_twice initialState "living" "tv1"
    { id := "a", timestamp := "t" } { id := "b", timestamp := "u" }
    (by decide) (by decide)).1

/-- Claim C6: the device toggle only ever produces the statuses ACTIVE and
IDLE, and from any state in which all device statuses are ACTIVE or IDLE,
every state reachable by any sequence of events keeps all device statuses
in that set; the OFF and ERROR statuses are never produced. -/
theorem c6_status_invariant :
    (∀ st : DeviceStatus, toggleStatus st = DeviceStatus.ACTIVE
        ∨ toggleStatus st = DeviceStatus.IDLE)
    ∧ ∀ (s : State) (acts : List Action),
        statusInv s → statusInv (applyActions acts s) := by
  refine ⟨toggleStatus_mem, ?_⟩
  intro s acts
  induction acts generalizing s with
  | nil => exact fun h => h
  | cons a acts ih =>
    intro h
    exact ih (applyAction a s) (statusInv_applyAction a s h)

/-- Witness for C6 at the initial state and one device toggle. -/
theorem c6_status_invariant_witness :
    statusInv initialState
    ∧ statusInv (applyActions
        [Action.toggleDevice "living" "tv1" { id := "a", timestamp := "t" }]
        initialState) := by
  refine ⟨by decide, ?_⟩
  exact c6_status_invariant.2 initialState
    [Action.toggleDevice "living" "tv1" { id := "a", timestamp := "t" }]
    (by decide)

/-- Claim C7: for every device id that belongs to some room in the current
room list, selecting that device sets the active room to an owning room's
id and the selected device to that device id; in particular the active
room is not left null. -/
theorem c7_device_select (s : State) (did : String)
    (h : ∃ r ∈ s.rooms, ∃ d ∈ r.devices, d.id = did) :
    ∃ r ∈ s.rooms,
      (∃ d ∈ r.devices, d.id = did)
      ∧ (applyAction (Action.handleDeviceSelect did) s).activeRoomId
          = some r.id
      ∧ (applyAction (Action.handleDeviceSelect did) s).selectedDeviceId
          = some did
      ∧ (applyAction (Action.handleDeviceSelect did) s).activeRoomId
          ≠ none := by
  have hsome : (s.rooms.find?
      (fun r => r.devices.any (fun d => d.id == did))).isSome := by
    rw [List.find?_isSome]
    obtain ⟨r, hr, d, hd, hid⟩ := h
    refine ⟨r, hr, ?_⟩
    rw [List.any_eq_true]
    exact ⟨d, hd, by simp [hid]⟩
  obtain ⟨room, hfind⟩ := Option.isSome_iff_exists.mp hsome
  have hmem := List.mem_of_find?_eq_some hfind
  have hpred := List.find?_some hfind
  rw [List.any_eq_true] at hpred
  obtain ⟨d, hd, hdid⟩ := hpred
  have happ : applyAction (Action.handleDeviceSelect did) s
      = { s with
          activeRoomId := some room.id,
          selectedDeviceId := some did } := by
    simp only [applyAction]
    rw [hfind]
  refine ⟨room, hmem, ⟨d, hd, by simpa using hdid⟩, ?_, ?_, ?_⟩
  · rw [happ]
  · rw [happ]
  · rw [happ]
    simp

/-- Witness for C7 at the initial state, selecting the living room TV. -/
theorem c7_device_select_witness :
    (∃ r ∈ initialState.rooms, ∃ d ∈ r.devices, d.id = "tv1")
    ∧ ∃ r ∈ initialState.rooms,
        (∃ d ∈ r.devices, d.id = "tv1")
        ∧ (applyAction (Action.handleDeviceSelect "tv1")
            initialState).activeRoomId = some r.id
        ∧ (applyAction (Action.handleDeviceSelect "tv1")
            initialState).selectedDeviceId = some "tv1"
        ∧ (applyAction (Action.handleDeviceSelect "tv1")
            initialState).activeRoomId ≠ none := by
  refine ⟨by decide, ?_⟩
  exact c7_device_select initialState "tv1" (by decide)

/-- Claim C8: submitting a command whose text is empty or all whitespace
leaves the entire state unchanged — no log entry, no AI status change, no
view-mode or room/device mutation. -/
theorem c8_blank_command (s : State) (stamp : Stamp)
    (h : ∀ c ∈ s.aiInput.toList, c.isWhitespace = true) :
    applyAction (Action.aiSubmit stamp) s = s := by
  have ht : jsTrim s.aiInput = "" := jsTrim_all_ws h
  simp [applyAction, ht]

/-- Witness for C8 at the initial state with a single-space input. -/
theorem c8_blank_command_witness :
    (∀ c ∈ ({ initialState with aiInput := " " } : State).aiInput.toList,
        c.isWhitespace = true)
    ∧ applyAction (Action.aiSubmit { id := "z", timestamp := "t" })
        { initialState with aiInput := " " }
      = { initialState with aiInput := " " } := by
  refine ⟨by decide, ?_⟩
  exact c8_blank_command { initialState with aiInput := " " }
    { id := "z", timestamp := "t" } (by decide)

/-- Claim C9: the text-generation operation is total — on a thrown error
or on missing/empty content it returns a fixed diagnostic string — and the
dispatcher resets the AI status to IDLE after every completed request,
whatever the outcome. -/
theorem c9_error_absorbed :
    (∀ (rooms : List RoomNode) (status : SystemStatus) (q : String),
        generateSystemInsight rooms status q CallOutcome.failure
          = "CONNECTION ERROR: UNABLE TO REACH AI CORE.")
    ∧ (∀ (rooms : List RoomNode) (status : SystemStatus) (q : String),
        generateSystemInsight rooms status q (CallOutcome.success none)
          = "SYSTEM ERROR: NO RESPONSE DATA")
    ∧ (∀ (rooms : List RoomNode) (status : SystemStatus) (q : String),
        generateSystemInsight rooms status q (CallOutcome.success (some ""))
          = "SYSTEM ERROR: NO RESPONSE DATA")
    ∧ (∀ (s : State) (q : String) (out : CallOutcome) (st : Stamp),
        (applyAction (Action.aiResolve q out st) s).systemStatus.aiStatus
          = AIStatus.IDLE) := by
  exact ⟨fun _ _ _ => rfl, fun _ _ _ => rfl, fun _ _ _ => rfl,
    fun _ _ _ _ => rfl⟩

/-- Claim C10: the device toggle maps every non-ACTIVE status — including
OFF and ERROR — to ACTIVE, so toggling twice from OFF or ERROR yields
IDLE, not the original status; and the toggle pass rewrites exactly the
matching devices by this status flip. -/
theorem c10_toggle_inactive :
    (∀ st : DeviceStatus, st ≠ DeviceStatus.ACTIVE →
        toggleStatus st = DeviceStatus.ACTIVE)
    ∧ toggleStatus (toggleStatus DeviceStatus.OFF) = DeviceStatus.IDLE
    ∧ toggleStatus (toggleStatus DeviceStatus.ERROR) = DeviceStatus.IDLE
    ∧ ∀ (did : String) (st : Stamp) (ds : List Device)
        (logs : List LogEntry),
        (toggleDevicesAux did st ds logs).1 = ds.map (flipDevice did) := by
  refine ⟨?_, rfl, rfl, fun did st ds logs =>
    toggleDevicesAux_fst did st ds logs⟩
  intro st h
  cases st <;> simp_all [toggleStatus]

/-- Witness for C10 at the OFF status. -/
theorem c10_toggle_inactive_witness :
    DeviceStatus.OFF ≠ DeviceStatus.ACTIVE
    ∧ toggleStatus DeviceStatus.OFF = DeviceStatus.ACTIVE := by
  refine ⟨by decide, ?_⟩
  exact c10_toggle_inactive.1 DeviceStatus.OFF (by decide)

end SmartHome
